import Mathlib

/-
Verification of the pending-operation ledger data model
from apps/glusterfs/pendingop.go, together with a spec-modelled
registry and rollback engine for the parts of the design whose
code is not part of the embedded surface.
-/

set_option maxRecDepth 4000

/-- PendingOperationType identifies what kind of high-level operation a
PendingOperation will be.  In Go this is a named integer type, so the
embedding keeps the full integer carrier. -/
abbrev PendingOperationType := Int

/-- PendingChangeType identifies what kind of lower-level new item or change
is being made to the system as part of a higher-level pending operation.
In Go this is a named integer type. -/
abbrev PendingChangeType := Int

def OperationUnknown : PendingOperationType := 0
def OperationCreateVolume : PendingOperationType := 1
def OperationDeleteVolume : PendingOperationType := 2
def OperationExpandVolume : PendingOperationType := 3
def OperationCreateBlockVolume : PendingOperationType := 4
def OperationDeleteBlockVolume : PendingOperationType := 5
def OperationExpandBlockVolume : PendingOperationType := 6
def OperationRemoveDevice : PendingOperationType := 7
def OperationCloneVolume : PendingOperationType := 8
def OperationBrickEvict : PendingOperationType := 9

def OpUnknown : PendingChangeType := 0
def OpAddBrick : PendingChangeType := 1
def OpAddVolume : PendingChangeType := 2
def OpDeleteBrick : PendingChangeType := 3
def OpDeleteVolume : PendingChangeType := 4
def OpExpandVolume : PendingChangeType := 5
def OpAddBlockVolume : PendingChangeType := 6
def OpDeleteBlockVolume : PendingChangeType := 7
def OpExpandBlockVolume : PendingChangeType := 8
def OpRemoveDevice : PendingChangeType := 9
def OpCloneVolume : PendingChangeType := 10
def OpSnapshotVolume : PendingChangeType := 11
def OpAddVolumeClone : PendingChangeType := 12
def OpChildOperation : PendingChangeType := 13
def OpParentOperation : PendingChangeType := 14

/-- Model of the Go empty-interface Delta payload.  The payloads that
appear in the design are an integer size delta and a linked-operation
identifier string; the none constructor models a nil interface value. -/
inductive DeltaVal where
  | none : DeltaVal
  | intVal : Int → DeltaVal
  | strVal : String → DeltaVal
deriving DecidableEq

/-- PendingOperationAction tracks individual changes to entries within the
heketi db: a change type, a (heketi uuid) id, and an optional delta
payload for extra metadata. -/
structure PendingOperationAction where
  Change : PendingChangeType
  Id : String
  Delta : DeltaVal
deriving DecidableEq

/-- PendingOperation tracks higher-level changes to the heketi system.
The Go struct embeds PendingItem, whose only field Id is inlined here;
the Go field named Type is called OpType because Type is a Lean keyword. -/
structure PendingOperation where
  Id : String
  Timestamp : Int
  OpType : PendingOperationType
  Actions : List PendingOperationAction
deriving DecidableEq

/-- ExpandSize extracts an int value for a pending size expansion from the
PendingOperationAction if the change type is correct.  The Go function
returns the pair of an int and an error; the error is modelled as an
optional message, and the Go nil error as Option.none. -/
def PendingOperationAction.ExpandSize (a : PendingOperationAction) : Int × Option String :=
  if a.Change = OpExpandVolume then
    match a.Delta with
    | DeltaVal.intVal v => (v, Option.none)
    | _ => (0, Option.some "Action delta for ExpandSize is missing/invalid")
  else (0, Option.some "Action delta for ExpandSize is missing/invalid")

/-- Name returns the pending operation type as a brief string, mirroring
the Go switch statement with its fallthrough to the unknown sentinel. -/
def PendingOperationType.Name (v : PendingOperationType) : String :=
  if v = OperationCreateVolume then "create-volume"
  else if v = OperationDeleteVolume then "delete-volume"
  else if v = OperationExpandVolume then "expand-volume"
  else if v = OperationCreateBlockVolume then "create-block-volume"
  else if v = OperationDeleteBlockVolume then "delete-block-volume"
  else if v = OperationExpandBlockVolume then "expand-block-volume"
  else if v = OperationRemoveDevice then "remove-device"
  else if v = OperationCloneVolume then "clone-volume"
  else if v = OperationBrickEvict then "evict-brick"
  else "unknown"

/-- Name returns a short description of a change action, mirroring the Go
switch statement with its fallthrough to the capitalized Unknown sentinel. -/
def PendingChangeType.Name (c : PendingChangeType) : String :=
  if c = OpAddBrick then "Add brick"
  else if c = OpAddVolume then "Add volume"
  else if c = OpDeleteBrick then "Delete brick"
  else if c = OpDeleteVolume then "Delete volume"
  else if c = OpExpandVolume then "Expand volume"
  else if c = OpAddBlockVolume then "Add block volume"
  else if c = OpDeleteBlockVolume then "Delete block volume"
  else if c = OpExpandBlockVolume then "Expand block volume"
  else if c = OpRemoveDevice then "Remove device"
  else if c = OpCloneVolume then "Clone volume from"
  else if c = OpSnapshotVolume then "Snapshot volume"
  else if c = OpAddVolumeClone then "Expand volume to"
  else if c = OpChildOperation then "Performing child operation"
  else if c = OpParentOperation then "Belongs to parent operation"
  else "Unknown"

/-- The declared members of the PendingOperationType enumeration. -/
def declaredOperationTypes : List PendingOperationType :=
  [OperationUnknown, OperationCreateVolume, OperationDeleteVolume,
   OperationExpandVolume, OperationCreateBlockVolume, OperationDeleteBlockVolume,
   OperationExpandBlockVolume, OperationRemoveDevice, OperationCloneVolume,
   OperationBrickEvict]

/-- The declared members of the PendingChangeType enumeration. -/
def declaredChangeTypes : List PendingChangeType :=
  [OpUnknown, OpAddBrick, OpAddVolume, OpDeleteBrick, OpDeleteVolume,
   OpExpandVolume, OpAddBlockVolume, OpDeleteBlockVolume, OpExpandBlockVolume,
   OpRemoveDevice, OpCloneVolume, OpSnapshotVolume, OpAddVolumeClone,
   OpChildOperation, OpParentOperation]

/-- Go zero value of PendingOperation: empty strings and lists, integer
fields zero, so the operation type is the iota-zero constant. -/
def zeroPendingOperation : PendingOperation :=
  { Id := "", Timestamp := 0, OpType := 0, Actions := [] }

/-- Go zero value of PendingOperationAction: change type zero, empty id,
nil Delta interface. -/
def zeroPendingOperationAction : PendingOperationAction :=
  { Change := 0, Id := "", Delta := DeltaVal.none }

/-- Boolean test for whether a Delta payload holds an integer, mirroring
the ok result of the Go type assertion on int. -/
def isIntDelta : DeltaVal → Bool
  | DeltaVal.intVal _ => true
  | _ => false

/-- Modelled from the spec: a managed entity external to the ledger (brick,
volume, block volume or device) with its recorded size and, for devices,
an attachment flag; the entity stores themselves are outside the embedded
source surface. -/
structure Entity where
  size : Int
  attached : Bool
deriving DecidableEq

/-- Modelled from the spec: the shared key-value store of section 6.  It
holds the entity records, the per-entity pending-lock markers (entity id
paired with the owning operation id), and the persisted PendingOperation
records keyed by id.  The registry, locking and rollback code is not part
of the embedded source surface. -/
structure Store where
  entities : List (String × Entity)
  marks : List (String × String)
  ops : List (String × PendingOperation)
deriving DecidableEq

def lookupEntity (st : Store) (k : String) : Option Entity :=
  (st.entities.find? (fun p => p.1 == k)).map (fun p => p.2)

def removeEntity (st : Store) (k : String) : Store :=
  { st with entities := st.entities.filter (fun p => p.1 != k) }

def setEntity (st : Store) (k : String) (e : Entity) : Store :=
  { st with entities := (k, e) :: st.entities.filter (fun p => p.1 != k) }

/-- Modelled from the spec: the pending-lock marker of section 4.1, a
back-reference from entity k to the owning operation o. -/
def hasMark (st : Store) (k o : String) : Prop := (k, o) ∈ st.marks

instance (st : Store) (k o : String) : Decidable (hasMark st k o) :=
  inferInstanceAs (Decidable ((k, o) ∈ st.marks))

/-- Modelled from the spec: releasing every pending lock held by operation
o, done when the operation terminates by Commit or Rollback. -/
def releaseMarks (st : Store) (o : String) : Store :=
  { st with marks := st.marks.filter (fun p => p.2 != o) }

def lookupOp (st : Store) (k : String) : Option PendingOperation :=
  (st.ops.find? (fun p => p.1 == k)).map (fun p => p.2)

def removeOp (st : Store) (k : String) : Store :=
  { st with ops := st.ops.filter (fun p => p.1 != k) }

/-- Modelled from the spec: the registry Save operation on its success
path, which atomically replaces the persisted record for the given
operation id; the compare-and-swap retry loop sits outside this model. -/
def Save (st : Store) (op : PendingOperation) : Store :=
  { st with ops := (op.Id, op) :: st.ops.filter (fun p => p.1 != op.Id) }

/-- Modelled from the spec: the registry Load operation, returning the
persisted record for an id when one exists. -/
def Load (st : Store) (k : String) : Option PendingOperation := lookupOp st k

/-- Modelled from the spec: the per-action outcome a rollback walk reports;
StaleAction marks a target that was already absent and is success, failed
marks a link or pre-image the engine could not resolve. -/
inductive RollbackOutcome where
  | deleted
  | recreated
  | shrunk
  | reattached
  | childRolledBack
  | staleAction
  | failed
deriving DecidableEq

/-- Change kinds whose inverse deletes the created entity, from the
rollback table of section 4.3. -/
def createClass : List PendingChangeType :=
  [OpAddBrick, OpAddVolume, OpAddBlockVolume, OpCloneVolume,
   OpSnapshotVolume, OpAddVolumeClone]

/-- Change kinds whose inverse re-creates the entity from a pre-image. -/
def deleteClass : List PendingChangeType :=
  [OpDeleteBrick, OpDeleteVolume, OpDeleteBlockVolume]

/-- Change kinds whose inverse subtracts the stored delta from the
recorded entity size. -/
def expandClass : List PendingChangeType :=
  [OpExpandVolume, OpExpandBlockVolume]

/-- Classification of a change kind by the rollback table of section 4.3. -/
inductive ChangeClass where
  | createC
  | deleteC
  | expandC
  | removeC
  | childC
  | parentC
  | otherC
deriving DecidableEq

def changeClassOf (c : PendingChangeType) : ChangeClass :=
  if c = OpChildOperation then ChangeClass.childC
  else if c = OpParentOperation then ChangeClass.parentC
  else if c ∈ createClass then ChangeClass.createC
  else if c ∈ deleteClass then ChangeClass.deleteC
  else if c ∈ expandClass then ChangeClass.expandC
  else if c = OpRemoveDevice then ChangeClass.removeC
  else ChangeClass.otherC

/-- The linked-operation identifier carried by child and parent link
actions. -/
def linkOf : DeltaVal → Option String
  | DeltaVal.strVal s => Option.some s
  | _ => Option.none

abbrev Trace := List (String × RollbackOutcome)

abbrev RbFun := Store → PendingOperation → Store × Trace

/-- Modelled from the spec: apply the inverse of one recorded action for
the operation o, per the table of section 4.3.  An action whose target is
no longer applicable reports StaleAction and leaves the store unchanged;
entity-directed inverses apply only while the entity still carries the
pending lock of o, which the terminating walk releases, making a retried
walk stale throughout.  A child-operation link recurses through the given
child handler and retires the child record; a parent link is informational
only.  The failed outcome marks a malformed link or a missing pre-image. -/
def rbOne (child : RbFun) (pre : String → Option Entity) (o : String)
    (st : Store) (a : PendingOperationAction) : Store × Trace :=
  match changeClassOf a.Change with
  | ChangeClass.childC =>
    match linkOf a.Delta with
    | Option.none => (st, [(a.Id, RollbackOutcome.failed)])
    | Option.some cid =>
      match lookupOp st cid with
      | Option.none => (st, [(a.Id, RollbackOutcome.staleAction)])
      | Option.some c =>
        (removeOp (child st c).1 cid,
         (a.Id, RollbackOutcome.childRolledBack) :: (child st c).2)
  | ChangeClass.parentC => (st, [(a.Id, RollbackOutcome.staleAction)])
  | ChangeClass.otherC => (st, [(a.Id, RollbackOutcome.staleAction)])
  | ChangeClass.createC =>
    if hasMark st a.Id o then
      match lookupEntity st a.Id with
      | Option.some _ => (removeEntity st a.Id, [(a.Id, RollbackOutcome.deleted)])
      | Option.none => (st, [(a.Id, RollbackOutcome.staleAction)])
    else (st, [(a.Id, RollbackOutcome.staleAction)])
  | ChangeClass.deleteC =>
    if hasMark st a.Id o then
      match lookupEntity st a.Id with
      | Option.some _ => (st, [(a.Id, RollbackOutcome.staleAction)])
      | Option.none =>
        match pre a.Id with
        | Option.some e => (setEntity st a.Id e, [(a.Id, RollbackOutcome.recreated)])
        | Option.none => (st, [(a.Id, RollbackOutcome.failed)])
    else (st, [(a.Id, RollbackOutcome.staleAction)])
  | ChangeClass.expandC =>
    if hasMark st a.Id o then
      match lookupEntity st a.Id, a.Delta with
      | Option.some e, DeltaVal.intVal d =>
        (setEntity st a.Id { e with size := e.size - d },
         [(a.Id, RollbackOutcome.shrunk)])
      | Option.some _, _ => (st, [(a.Id, RollbackOutcome.failed)])
      | Option.none, _ => (st, [(a.Id, RollbackOutcome.staleAction)])
    else (st, [(a.Id, RollbackOutcome.staleAction)])
  | ChangeClass.removeC =>
    if hasMark st a.Id o then
      match lookupEntity st a.Id with
      | Option.some e =>
        (setEntity st a.Id { e with attached := true },
         [(a.Id, RollbackOutcome.reattached)])
      | Option.none => (st, [(a.Id, RollbackOutcome.staleAction)])
    else (st, [(a.Id, RollbackOutcome.staleAction)])

/-- Modelled from the spec: the rollback walk over an already reversed
action list, threading the store and concatenating the per-action
outcomes. -/
def rbList (child : RbFun) (pre : String → Option Entity) (o : String) :
    Store → List PendingOperationAction → Store × Trace
  | st, [] => (st, [])
  | st, a :: rest =>
    ((rbList child pre o (rbOne child pre o st a).1 rest).1,
     (rbOne child pre o st a).2 ++
       (rbList child pre o (rbOne child pre o st a).1 rest).2)

/-- Modelled from the spec: the handler used when the bounded recursion
depth for child operations is exhausted. -/
def failRb : RbFun := fun st op => (st, [(op.Id, RollbackOutcome.failed)])

/-- Modelled from the spec: the rollback engine of section 4.3 with an
explicit recursion-depth bound.  It walks the recorded actions in strict
reverse append order applying the inverse of each, then terminates the
operation: all its pending locks are released and its persisted record is
retired. -/
def rbOpFuel (pre : String → Option Entity) : Nat → RbFun
  | 0 => failRb
  | fuel + 1 => fun st op =>
    (removeOp
       (releaseMarks
         (rbList (rbOpFuel pre fuel) pre op.Id st op.Actions.reverse).1 op.Id)
       op.Id,
     (rbList (rbOpFuel pre fuel) pre op.Id st op.Actions.reverse).2)

/-- Modelled from the spec: Rollback undoes a failed workflow; the fuel
argument bounds the depth of child-operation recursion below the root. -/
def Rollback (pre : String → Option Entity) (fuel : Nat) (st : Store)
    (op : PendingOperation) : Store × Trace :=
  rbOpFuel pre (fuel + 1) st op

/-- An empty pre-image side channel for scenarios that never undo a
delete-class action. -/
def noPreImages : String → Option Entity := fun _ => Option.none

/-- The add-brick action of the scenario in section 8 of the spec. -/
def brickAction : PendingOperationAction :=
  { Change := OpAddBrick, Id := "brick-1", Delta := DeltaVal.none }

/-- The add-volume action of the scenario in section 8 of the spec. -/
def volAction : PendingOperationAction :=
  { Change := OpAddVolume, Id := "vol-2", Delta := DeltaVal.none }

/-- The create-volume operation of the scenario in section 8 of the spec:
it has recorded AddBrick for brick-1 and then AddVolume for vol-2. -/
def scenarioOp : PendingOperation :=
  { Id := "op-1", Timestamp := 0, OpType := OperationCreateVolume,
    Actions := [brickAction, volAction] }

/-- The store of the scenario: both created entities exist and are
enrolled under the operation, whose record is persisted. -/
def scenarioStore : Store :=
  { entities := [("brick-1", { size := 1, attached := true }),
                 ("vol-2", { size := 10, attached := true })],
    marks := [("brick-1", "op-1"), ("vol-2", "op-1")],
    ops := [("op-1", scenarioOp)] }

/-- Helper: a PendingOperationType outside the declared range falls through
every case of the Name switch to the unknown sentinel. -/
lemma opTypeName_out_of_range (n : PendingOperationType)
    (h : n ∉ declaredOperationTypes) : PendingOperationType.Name n = "unknown" := by
  have h1 : n ≠ OperationCreateVolume := fun e =>
    h (e ▸ (by decide : OperationCreateVolume ∈ declaredOperationTypes))
  have h2 : n ≠ OperationDeleteVolume := fun e =>
    h (e ▸ (by decide : OperationDeleteVolume ∈ declaredOperationTypes))
  have h3 : n ≠ OperationExpandVolume := fun e =>
    h (e ▸ (by decide : OperationExpandVolume ∈ declaredOperationTypes))
  have h4 : n ≠ OperationCreateBlockVolume := fun e =>
    h (e ▸ (by decide : OperationCreateBlockVolume ∈ declaredOperationTypes))
  have h5 : n ≠ OperationDeleteBlockVolume := fun e =>
    h (e ▸ (by decide : OperationDeleteBlockVolume ∈ declaredOperationTypes))
  have h6 : n ≠ OperationExpandBlockVolume := fun e =>
    h (e ▸ (by decide : OperationExpandBlockVolume ∈ declaredOperationTypes))
  have h7 : n ≠ OperationRemoveDevice := fun e =>
    h (e ▸ (by decide : OperationRemoveDevice ∈ declaredOperationTypes))
  have h8 : n ≠ OperationCloneVolume := fun e =>
    h (e ▸ (by decide : OperationCloneVolume ∈ declaredOperationTypes))
  have h9 : n ≠ OperationBrickEvict := fun e =>
    h (e ▸ (by decide : OperationBrickEvict ∈ declaredOperationTypes))
  simp only [PendingOperationType.Name, h1, h2, h3, h4, h5, h6, h7, h8, h9,
    if_false, ite_false]

/-- Helper: a PendingChangeType outside the declared range falls through
every case of the Name switch to the capitalized Unknown sentinel. -/
lemma changeTypeName_out_of_range (m : PendingChangeType)
    (h : m ∉ declaredChangeTypes) : PendingChangeType.Name m = "Unknown" := by
  have h1 : m ≠ OpAddBrick := fun e =>
    h (e ▸ (by decide : OpAddBrick ∈ declaredChangeTypes))
  have h2 : m ≠ OpAddVolume := fun e =>
    h (e ▸ (by decide : OpAddVolume ∈ declaredChangeTypes))
  have h3 : m ≠ OpDeleteBrick := fun e =>
    h (e ▸ (by decide : OpDeleteBrick ∈ declaredChangeTypes))
  have h4 : m ≠ OpDeleteVolume := fun e =>
    h (e ▸ (by decide : OpDeleteVolume ∈ declaredChangeTypes))
  have h5 : m ≠ OpExpandVolume := fun e =>
    h (e ▸ (by decide : OpExpandVolume ∈ declaredChangeTypes))
  have h6 : m ≠ OpAddBlockVolume := fun e =>
    h (e ▸ (by decide : OpAddBlockVolume ∈ declaredChangeTypes))
  have h7 : m ≠ OpDeleteBlockVolume := fun e =>
    h (e ▸ (by decide : OpDeleteBlockVolume ∈ declaredChangeTypes))
  have h8 : m ≠ OpExpandBlockVolume := fun e =>
    h (e ▸ (by decide : OpExpandBlockVolume ∈ declaredChangeTypes))
  have h9 : m ≠ OpRemoveDevice := fun e =>
    h (e ▸ (by decide : OpRemoveDevice ∈ declaredChangeTypes))
  have h10 : m ≠ OpCloneVolume := fun e =>
    h (e ▸ (by decide : OpCloneVolume ∈ declaredChangeTypes))
  have h11 : m ≠ OpSnapshotVolume := fun e =>
    h (e ▸ (by decide : OpSnapshotVolume ∈ declaredChangeTypes))
  have h12 : m ≠ OpAddVolumeClone := fun e =>
    h (e ▸ (by decide : OpAddVolumeClone ∈ declaredChangeTypes))
  have h13 : m ≠ OpChildOperation := fun e =>
    h (e ▸ (by decide : OpChildOperation ∈ declaredChangeTypes))
  have h14 : m ≠ OpParentOperation := fun e =>
    h (e ▸ (by decide : OpParentOperation ∈ declaredChangeTypes))
  simp only [PendingChangeType.Name, h1, h2, h3, h4, h5, h6, h7, h8, h9, h10, h11,
    h12, h13, h14, if_false, ite_false]

/-- C1: ExpandSize returns a value v with no error exactly when the change
kind is ExpandVolume and the Delta payload holds the integer v; in that case
the returned value is the stored integer itself, and in every other case
(wrong change kind, absent payload, or non-integer payload) the error is
set. -/
theorem expandSize_ok_iff (a : PendingOperationAction) (v : Int) :
    a.ExpandSize = (v, Option.none) ↔
      (a.Change = OpExpandVolume ∧ a.Delta = DeltaVal.intVal v) := by
  by_cases h : a.Change = OpExpandVolume
  · cases hd : a.Delta <;> simp [PendingOperationAction.ExpandSize, h, hd]
  · simp [PendingOperationAction.ExpandSize, h]

/-- C2: for every value of both enumerations, including values outside the
declared range, the Name function returns a non-empty string; it is a total
function and cannot error or panic. -/
theorem name_total_nonempty :
    (∀ v : PendingOperationType, PendingOperationType.Name v ≠ "") ∧
    (∀ c : PendingChangeType, PendingChangeType.Name c ≠ "") := by
  constructor
  · intro v
    by_cases hv : v ∈ declaredOperationTypes
    · fin_cases hv <;> decide
    · rw [opTypeName_out_of_range v hv]
      decide
  · intro c
    by_cases hc : c ∈ declaredChangeTypes
    · fin_cases hc <;> decide
    · rw [changeTypeName_out_of_range c hc]
      decide

/-- C3 counterexample: the change value 15 is outside the declared range of
PendingChangeType, yet Name maps it to the capitalized string Unknown and
not to the lowercase sentinel claimed. -/
theorem changeName_sentinel_counterexample :
    (15 : PendingChangeType) ∉ declaredChangeTypes ∧
    PendingChangeType.Name 15 = "Unknown" ∧
    PendingChangeType.Name 15 ≠ "unknown" := by
  refine ⟨by decide, by decide, by decide⟩

/-- C3 amended: every PendingOperationType outside the declared range is
mapped by Name to the fixed sentinel unknown in lowercase, and every
PendingChangeType outside the declared range is mapped by Name to the fixed
sentinel Unknown with a capital letter; each enumeration has a single fixed
sentinel but the two sentinel strings differ. -/
theorem name_sentinel_amended :
    (∀ n : PendingOperationType, n ∉ declaredOperationTypes →
      PendingOperationType.Name n = "unknown") ∧
    (∀ m : PendingChangeType, m ∉ declaredChangeTypes →
      PendingChangeType.Name m = "Unknown") :=
  ⟨opTypeName_out_of_range, changeTypeName_out_of_range⟩

/-- C3 amended witness at the concrete out-of-range values 99 and 99. -/
theorem name_sentinel_amended_witness :
    ((99 : PendingOperationType) ∉ declaredOperationTypes ∧
      PendingOperationType.Name 99 = "unknown") ∧
    ((99 : PendingChangeType) ∉ declaredChangeTypes ∧
      PendingChangeType.Name 99 = "Unknown") :=
  ⟨⟨by decide, name_sentinel_amended.1 99 (by decide)⟩,
   ⟨by decide, name_sentinel_amended.2 99 (by decide)⟩⟩

/-- C4 counterexample: an action whose change kind is ExpandVolume but whose
Delta payload is absent makes ExpandSize return an error, refuting the claim
that every action with change kind ExpandVolume yields an integer with no
error. -/
theorem expandSize_missing_delta_counterexample :
    (PendingOperationAction.ExpandSize
        { Change := OpExpandVolume, Id := "vol-1", Delta := DeltaVal.none }).2 ≠
      Option.none ∧
    ({ Change := OpExpandVolume, Id := "vol-1", Delta := DeltaVal.none } :
        PendingOperationAction).Change = OpExpandVolume := by
  refine ⟨by decide, by decide⟩

/-- C4 amended: when the change kind is ExpandVolume and the Delta payload
holds the integer v, ExpandSize returns exactly v with no error; for every
action whose change kind is not ExpandVolume it returns zero together with
the descriptive error message. -/
theorem expandSize_typed_extraction :
    (∀ (a : PendingOperationAction) (v : Int), a.Change = OpExpandVolume →
      a.Delta = DeltaVal.intVal v → a.ExpandSize = (v, Option.none)) ∧
    (∀ a : PendingOperationAction, a.Change ≠ OpExpandVolume →
      a.ExpandSize = (0, Option.some "Action delta for ExpandSize is missing/invalid")) := by
  constructor
  · intro a v hc hd
    simp [PendingOperationAction.ExpandSize, hc, hd]
  · intro a hc
    simp [PendingOperationAction.ExpandSize, hc]

/-- C4 amended witness: a concrete expand action with stored integer 5
extracts 5 with no error, and a concrete add-brick action yields the error. -/
theorem expandSize_typed_extraction_witness :
    (PendingOperationAction.ExpandSize
        { Change := OpExpandVolume, Id := "vol-9", Delta := DeltaVal.intVal 5 } =
      (5, Option.none)) ∧
    (PendingOperationAction.ExpandSize
        { Change := OpAddBrick, Id := "brick-9", Delta := DeltaVal.none } =
      (0, Option.some "Action delta for ExpandSize is missing/invalid")) :=
  ⟨expandSize_typed_extraction.1
      { Change := OpExpandVolume, Id := "vol-9", Delta := DeltaVal.intVal 5 } 5 rfl rfl,
   expandSize_typed_extraction.2
      { Change := OpAddBrick, Id := "brick-9", Delta := DeltaVal.none } (by decide)⟩

/-- C5: within each enumeration the declared values are pairwise distinct,
the strings Name assigns to them are pairwise distinct, and every assigned
string is non-empty; hence Name is injective on the declared values. -/
theorem name_injective_on_declared :
    declaredOperationTypes.Nodup ∧
    (declaredOperationTypes.map PendingOperationType.Name).Nodup ∧
    (declaredOperationTypes.map PendingOperationType.Name).all
      (fun s => s != "") = true ∧
    declaredChangeTypes.Nodup ∧
    (declaredChangeTypes.map PendingChangeType.Name).Nodup ∧
    (declaredChangeTypes.map PendingChangeType.Name).all
      (fun s => s != "") = true := by
  refine ⟨by decide, by decide, by decide, by decide, by decide, by decide⟩

/-- C9: whenever ExpandSize fails, whether because the change kind is not
ExpandVolume or because the Delta payload is missing or not an integer, it
returns the integer 0 paired with the one fixed error message; the message
does not distinguish the failure causes. -/
theorem expandSize_error_uniform (a : PendingOperationAction)
    (h : ¬(a.Change = OpExpandVolume ∧ isIntDelta a.Delta = true)) :
    a.ExpandSize = (0, Option.some "Action delta for ExpandSize is missing/invalid") := by
  by_cases hc : a.Change = OpExpandVolume
  · cases hd : a.Delta with
    | intVal v => exact absurd ⟨hc, by simp [hd, isIntDelta]⟩ h
    | none => simp [PendingOperationAction.ExpandSize, hc, hd]
    | strVal s => simp [PendingOperationAction.ExpandSize, hc, hd]
  · simp [PendingOperationAction.ExpandSize, hc]

/-- C9 witness: concrete failing inputs of both causes return the same pair
of zero and the single fixed message. -/
theorem expandSize_error_uniform_witness :
    (¬(({ Change := OpAddBrick, Id := "b", Delta := DeltaVal.intVal 3 } :
          PendingOperationAction).Change = OpExpandVolume ∧
        isIntDelta DeltaVal.none = true)) ∧
    PendingOperationAction.ExpandSize
        { Change := OpAddBrick, Id := "b", Delta := DeltaVal.none } =
      (0, Option.some "Action delta for ExpandSize is missing/invalid") :=
  ⟨by decide,
   expandSize_error_uniform
      { Change := OpAddBrick, Id := "b", Delta := DeltaVal.none } (by decide)⟩

/-- C10: the zero value of each enumeration is its declared Unknown member,
a default-constructed operation and action carry those Unknown members, Name
maps the two Unknown members to the lowercase and capitalized sentinel
strings respectively, and every out-of-range value is mapped to the same
string as the corresponding Unknown member, so a name alone cannot
distinguish a declared Unknown member from an out-of-range value. -/
theorem zero_value_defaults :
    OperationUnknown = (0 : PendingOperationType) ∧
    OpUnknown = (0 : PendingChangeType) ∧
    zeroPendingOperation.OpType = OperationUnknown ∧
    zeroPendingOperationAction.Change = OpUnknown ∧
    PendingOperationType.Name OperationUnknown = "unknown" ∧
    PendingChangeType.Name OpUnknown = "Unknown" ∧
    (∀ n : PendingOperationType, n ∉ declaredOperationTypes →
      PendingOperationType.Name n = PendingOperationType.Name OperationUnknown) ∧
    (∀ m : PendingChangeType, m ∉ declaredChangeTypes →
      PendingChangeType.Name m = PendingChangeType.Name OpUnknown) := by
  refine ⟨rfl, rfl, rfl, rfl, by decide, by decide, ?_, ?_⟩
  · intro n hn
    rw [opTypeName_out_of_range n hn]
    decide
  · intro m hm
    rw [changeTypeName_out_of_range m hm]
    decide

/-- C10 witness: the out-of-range value 42 receives the same name as the
declared Unknown member in each enumeration. -/
theorem zero_value_defaults_witness :
    ((42 : PendingOperationType) ∉ declaredOperationTypes ∧
      PendingOperationType.Name 42 = PendingOperationType.Name OperationUnknown) ∧
    ((42 : PendingChangeType) ∉ declaredChangeTypes ∧
      PendingChangeType.Name 42 = PendingChangeType.Name OpUnknown) :=
  ⟨⟨by decide, zero_value_defaults.2.2.2.2.2.2.1 42 (by decide)⟩,
   ⟨by decide, zero_value_defaults.2.2.2.2.2.2.2 42 (by decide)⟩⟩

/-- Helper: a single rollback step never adds operation records to the
store, given that the child handler never does. -/
lemma rbOne_ops_sub (child : RbFun) (pre : String → Option Entity) (o : String)
    (hc : ∀ (s : Store) (c : PendingOperation) (p : String × PendingOperation),
      p ∈ (child s c).1.ops → p ∈ s.ops)
    (st : Store) (a : PendingOperationAction) :
    ∀ p ∈ (rbOne child pre o st a).1.ops, p ∈ st.ops := by
  intro p hp
  unfold rbOne at hp
  repeat' split at hp
  all_goals first
    | exact hp
    | (simp only [removeOp, setEntity, removeEntity, List.mem_filter] at hp
       first
         | exact hp
         | exact hc _ _ _ hp.1)

/-- Helper: the rollback walk never adds operation records to the store. -/
lemma rbList_ops_sub (child : RbFun) (pre : String → Option Entity) (o : String)
    (hc : ∀ (s : Store) (c : PendingOperation) (p : String × PendingOperation),
      p ∈ (child s c).1.ops → p ∈ s.ops) :
    ∀ (l : List PendingOperationAction) (st : Store),
      ∀ p ∈ (rbList child pre o st l).1.ops, p ∈ st.ops := by
  intro l
  induction l with
  | nil => intro st p hp; exact hp
  | cons a rest ih =>
    intro st p hp
    simp only [rbList] at hp
    exact rbOne_ops_sub child pre o hc st a p (ih _ p hp)

/-- Helper: the fueled rollback engine never adds operation records. -/
lemma rbOpFuel_ops_sub (pre : String → Option Entity) :
    ∀ (fuel : Nat) (s : Store) (c : PendingOperation)
      (p : String × PendingOperation),
      p ∈ (rbOpFuel pre fuel s c).1.ops → p ∈ s.ops := by
  intro fuel
  induction fuel with
  | zero => intro s c p hp; exact hp
  | succ fuel ih =>
    intro s c p hp
    simp only [rbOpFuel, removeOp, releaseMarks, List.mem_filter] at hp
    exact rbList_ops_sub (rbOpFuel pre fuel) pre c.Id ih c.Actions.reverse s p hp.1

/-- Helper: the classification sends exactly the child-operation change
kind to the child class. -/
lemma changeClassOf_childC (c : PendingChangeType) :
    changeClassOf c = ChangeClass.childC ↔ c = OpChildOperation := by
  constructor
  · intro h
    by_contra hne
    unfold changeClassOf at h
    rw [if_neg hne] at h
    repeat' split at h
    all_goals simp_all
  · intro h
    simp [changeClassOf, h]

/-- Helper: an id absent from every persisted record key makes lookupOp
return nothing. -/
lemma lookupOp_eq_none (st : Store) (k : String)
    (h : ∀ p ∈ st.ops, p.1 ≠ k) : lookupOp st k = Option.none := by
  unfold lookupOp
  rw [List.find?_eq_none.mpr]
  · rfl
  · intro x hx
    simp only [beq_iff_eq]
    exact h x hx

/-- Helper: when lookupOp returns nothing, no persisted record carries the
key. -/
lemma lookupOp_none_forall (st : Store) (k : String)
    (h : lookupOp st k = Option.none) : ∀ p ∈ st.ops, p.1 ≠ k := by
  intro p hp
  unfold lookupOp at h
  rw [Option.map_eq_none'] at h
  have := List.find?_eq_none.mp h p hp
  simpa using this

/-- Helper: when no mark is held for the operation o and every child link
of the action points at an absent record, one rollback step is stale and
leaves the store unchanged. -/
lemma rbOne_stale (child : RbFun) (pre : String → Option Entity) (o : String)
    (st : Store) (a : PendingOperationAction)
    (hm : ∀ p ∈ st.marks, p.2 ≠ o)
    (hch : a.Change = OpChildOperation →
      ∃ cid, linkOf a.Delta = Option.some cid ∧ ∀ p ∈ st.ops, p.1 ≠ cid) :
    rbOne child pre o st a = (st, [(a.Id, RollbackOutcome.staleAction)]) := by
  have hmark : ¬ hasMark st a.Id o := fun hmem => hm _ hmem rfl
  unfold rbOne
  cases hcl : changeClassOf a.Change with
  | childC =>
    obtain ⟨cid, hlink, habs⟩ := hch ((changeClassOf_childC a.Change).mp hcl)
    dsimp only
    rw [hlink]
    dsimp only
    rw [lookupOp_eq_none st cid habs]
  | parentC => rfl
  | otherC => rfl
  | createC => dsimp only; rw [if_neg hmark]
  | deleteC => dsimp only; rw [if_neg hmark]
  | expandC => dsimp only; rw [if_neg hmark]
  | removeC => dsimp only; rw [if_neg hmark]

/-- Helper: under the stale preconditions the whole walk reports
StaleAction for every action and leaves the store unchanged. -/
lemma rbList_stale (child : RbFun) (pre : String → Option Entity) (o : String) :
    ∀ (l : List PendingOperationAction) (st : Store),
      (∀ p ∈ st.marks, p.2 ≠ o) →
      (∀ a ∈ l, a.Change = OpChildOperation →
        ∃ cid, linkOf a.Delta = Option.some cid ∧ ∀ p ∈ st.ops, p.1 ≠ cid) →
      rbList child pre o st l =
        (st, l.map (fun a => (a.Id, RollbackOutcome.staleAction))) := by
  intro l
  induction l with
  | nil => intro st _ _; rfl
  | cons a rest ih =>
    intro st hm hch
    have h1 : rbOne child pre o st a = (st, [(a.Id, RollbackOutcome.staleAction)]) :=
      rbOne_stale child pre o st a hm (hch a (List.mem_cons_self a rest))
    have h2 := ih st hm (fun b hb => hch b (List.mem_cons_of_mem a hb))
    simp only [rbList, h1, h2, List.map, List.singleton_append]

/-- Helper: after a walk whose trace reports no failure, every child link
among the walked actions resolves and its linked record is no longer
persisted. -/
lemma rbList_childGone (child : RbFun) (pre : String → Option Entity) (o : String)
    (hc : ∀ (s : Store) (c : PendingOperation) (p : String × PendingOperation),
      p ∈ (child s c).1.ops → p ∈ s.ops) :
    ∀ (l : List PendingOperationAction) (st : Store),
      (∀ e ∈ (rbList child pre o st l).2, e.2 ≠ RollbackOutcome.failed) →
      ∀ a ∈ l, a.Change = OpChildOperation →
        ∃ cid, linkOf a.Delta = Option.some cid ∧
          ∀ p ∈ (rbList child pre o st l).1.ops, p.1 ≠ cid := by
  intro l
  induction l with
  | nil => intro st _ a ha; exact absurd ha (List.not_mem_nil a)
  | cons a rest ih =>
    intro st hfail b hb hchange
    have hfail1 : ∀ e ∈ (rbOne child pre o st a).2, e.2 ≠ RollbackOutcome.failed := by
      intro e he
      exact hfail e (by simp only [rbList, List.mem_append]; exact Or.inl he)
    have hfail2 : ∀ e ∈ (rbList child pre o (rbOne child pre o st a).1 rest).2,
        e.2 ≠ RollbackOutcome.failed := by
      intro e he
      exact hfail e (by simp only [rbList, List.mem_append]; exact Or.inr he)
    rcases List.mem_cons.mp hb with hba | hbrest
    · subst hba
      have hcl : changeClassOf b.Change = ChangeClass.childC :=
        (changeClassOf_childC b.Change).mpr hchange
      cases hl : linkOf b.Delta with
      | none =>
        exfalso
        apply hfail1 (b.Id, RollbackOutcome.failed) _ rfl
        unfold rbOne
        rw [hcl]
        dsimp only
        rw [hl]
        dsimp only
        exact List.mem_singleton.mpr rfl
      | some cid =>
        refine ⟨cid, rfl, ?_⟩
        cases hop : lookupOp st cid with
        | none =>
          have hs1 : (rbOne child pre o st b).1 = st := by
            unfold rbOne
            rw [hcl]
            dsimp only
            rw [hl]
            dsimp only
            rw [hop]
          intro p hp
          have hmem : p ∈ (rbOne child pre o st b).1.ops := by
            rw [hs1]
            exact rbList_ops_sub child pre o hc rest _ p (by
              simpa only [rbList, hs1] using hp)
          rw [hs1] at hmem
          exact lookupOp_none_forall st cid hop p hmem
        | some c =>
          have hs1 : (rbOne child pre o st b).1 = removeOp (child st c).1 cid := by
            unfold rbOne
            rw [hcl]
            dsimp only
            rw [hl]
            dsimp only
            rw [hop]
          intro p hp
          have hmem : p ∈ (rbOne child pre o st b).1.ops := by
            exact rbList_ops_sub child pre o hc rest _ p (by
              simpa only [rbList] using hp)
          rw [hs1] at hmem
          simp only [removeOp, List.mem_filter, bne_iff_ne, ne_eq] at hmem
          exact hmem.2
    · have := ih (rbOne child pre o st a).1 hfail2 b hbrest hchange
      obtain ⟨cid, hlink, habs⟩ := this
      refine ⟨cid, hlink, ?_⟩
      intro p hp
      exact habs p (by simpa only [rbList] using hp)

/-- Helper: releasing marks is the identity when none are held for o. -/
lemma releaseMarks_self (st : Store) (o : String)
    (h : ∀ p ∈ st.marks, p.2 ≠ o) : releaseMarks st o = st := by
  cases st with
  | mk e m p =>
    simp only [releaseMarks]
    congr 1
    rw [List.filter_eq_self]
    intro a ha
    simpa only [bne_iff_ne, ne_eq] using h a ha

/-- Helper: retiring a record is the identity when no record carries the
key. -/
lemma removeOp_self (st : Store) (k : String)
    (h : ∀ p ∈ st.ops, p.1 ≠ k) : removeOp st k = st := by
  cases st with
  | mk e m p =>
    simp only [removeOp]
    congr 1
    rw [List.filter_eq_self]
    intro a ha
    simpa only [bne_iff_ne, ne_eq] using h a ha

/-- Helper: after one full Rollback every pending lock of the operation
has been released. -/
lemma rollback_first_marks (pre : String → Option Entity) (fuel : Nat) (st : Store)
    (op : PendingOperation) :
    ∀ p ∈ (Rollback pre fuel st op).1.marks, p.2 ≠ op.Id := by
  intro p hp
  simp only [Rollback, rbOpFuel, removeOp, releaseMarks, List.mem_filter,
    bne_iff_ne, ne_eq] at hp
  exact hp.2

/-- Helper: after one full Rollback the record of the operation has been
retired from the store. -/
lemma rollback_first_ops (pre : String → Option Entity) (fuel : Nat) (st : Store)
    (op : PendingOperation) :
    ∀ p ∈ (Rollback pre fuel st op).1.ops, p.1 ≠ op.Id := by
  intro p hp
  simp only [Rollback, rbOpFuel, removeOp, releaseMarks, List.mem_filter,
    bne_iff_ne, ne_eq] at hp
  exact hp.2

/-- C6: Rollback applies the inverse of each recorded action in strict
reverse append order: for an operation whose recorded actions are front
followed by a last action a, the walk first undoes a against the incoming
store and only then walks the reversed front; in particular, for the
scenario that appended AddBrick for brick-1 and then AddVolume for vol-2,
the rollback trace deletes vol-2 first and brick-1 second and both
entities are removed from the store. -/
theorem rollback_lifo :
    (∀ (pre : String → Option Entity) (fuel : Nat) (st : Store)
        (op : PendingOperation)
        (front : List PendingOperationAction) (a : PendingOperationAction),
      op.Actions = front ++ [a] →
      Rollback pre fuel st op =
        (removeOp
           (releaseMarks
             (rbList (rbOpFuel pre fuel) pre op.Id
               (rbOne (rbOpFuel pre fuel) pre op.Id st a).1 front.reverse).1 op.Id)
           op.Id,
         (rbOne (rbOpFuel pre fuel) pre op.Id st a).2 ++
           (rbList (rbOpFuel pre fuel) pre op.Id
             (rbOne (rbOpFuel pre fuel) pre op.Id st a).1 front.reverse).2)) ∧
    ((Rollback noPreImages 0 scenarioStore scenarioOp).2 =
        [("vol-2", RollbackOutcome.deleted), ("brick-1", RollbackOutcome.deleted)] ∧
      (Rollback noPreImages 0 scenarioStore scenarioOp).1.entities = []) := by
  constructor
  · intro pre fuel st op front a h
    cases op with
    | mk i t ty acts =>
      simp only at h
      subst h
      simp only [Rollback, rbOpFuel, rbList, List.reverse_append, List.reverse_cons,
        List.reverse_nil, List.nil_append, List.cons_append, List.singleton_append]
  · refine ⟨by decide, by decide⟩

/-- C6 witness: the general reverse-order equation applied to the concrete
scenario operation, whose action list is AddBrick then AddVolume. -/
theorem rollback_lifo_witness :
    scenarioOp.Actions = [brickAction] ++ [volAction] ∧
    Rollback noPreImages 0 scenarioStore scenarioOp =
      (removeOp
         (releaseMarks
           (rbList (rbOpFuel noPreImages 0) noPreImages scenarioOp.Id
             (rbOne (rbOpFuel noPreImages 0) noPreImages scenarioOp.Id
               scenarioStore volAction).1
             [brickAction].reverse).1 scenarioOp.Id)
         scenarioOp.Id,
       (rbOne (rbOpFuel noPreImages 0) noPreImages scenarioOp.Id
           scenarioStore volAction).2 ++
         (rbList (rbOpFuel noPreImages 0) noPreImages scenarioOp.Id
           (rbOne (rbOpFuel noPreImages 0) noPreImages scenarioOp.Id
             scenarioStore volAction).1
           [brickAction].reverse).2) :=
  ⟨rfl, rollback_lifo.1 noPreImages 0 scenarioStore scenarioOp [brickAction] volAction rfl⟩

/-- C7: Rollback is idempotent: for any persisted operation whose first
rollback walk reports no failed outcome (a well-formed record, as the
registry invariants guarantee), invoking Rollback a second time on the
same record leaves the store exactly as the first invocation left it, and
every per-action outcome of the second call is StaleAction. -/
theorem rollback_idempotent (pre : String → Option Entity) (fuel : Nat)
    (st : Store) (op : PendingOperation)
    (h : ∀ e ∈ (Rollback pre fuel st op).2, e.2 ≠ RollbackOutcome.failed) :
    (Rollback pre fuel (Rollback pre fuel st op).1 op).1 = (Rollback pre fuel st op).1 ∧
    ∀ e ∈ (Rollback pre fuel (Rollback pre fuel st op).1 op).2,
      e.2 = RollbackOutcome.staleAction := by
  set st1 := (Rollback pre fuel st op).1 with hst1
  have hm1 : ∀ p ∈ st1.marks, p.2 ≠ op.Id := rollback_first_marks pre fuel st op
  have ho1 : ∀ p ∈ st1.ops, p.1 ≠ op.Id := rollback_first_ops pre fuel st op
  have hfail : ∀ e ∈ (rbList (rbOpFuel pre fuel) pre op.Id st op.Actions.reverse).2,
      e.2 ≠ RollbackOutcome.failed := by
    intro e he
    exact h e (by simpa only [Rollback, rbOpFuel] using he)
  have hgone := rbList_childGone (rbOpFuel pre fuel) pre op.Id
    (rbOpFuel_ops_sub pre fuel) op.Actions.reverse st hfail
  have hch1 : ∀ a ∈ op.Actions.reverse, a.Change = OpChildOperation →
      ∃ cid, linkOf a.Delta = Option.some cid ∧ ∀ p ∈ st1.ops, p.1 ≠ cid := by
    intro a ha hchange
    obtain ⟨cid, hlink, habs⟩ := hgone a ha hchange
    refine ⟨cid, hlink, ?_⟩
    intro p hp
    apply habs
    have : p ∈ (Rollback pre fuel st op).1.ops := hp
    simp only [Rollback, rbOpFuel, removeOp, releaseMarks, List.mem_filter] at this
    exact this.1
  have hrun := rbList_stale (rbOpFuel pre fuel) pre op.Id op.Actions.reverse st1 hm1 hch1
  constructor
  · show (rbOpFuel pre (fuel + 1) st1 op).1 = st1
    simp only [rbOpFuel, hrun]
    rw [releaseMarks_self st1 op.Id hm1, removeOp_self st1 op.Id ho1]
  · show ∀ e ∈ (rbOpFuel pre (fuel + 1) st1 op).2, e.2 = RollbackOutcome.staleAction
    simp only [rbOpFuel, hrun]
    intro e he
    obtain ⟨a, _, hae⟩ := List.mem_map.mp he
    rw [← hae]

/-- C7 witness: the scenario rollback reports no failure, and its second
invocation leaves the store unchanged with every outcome StaleAction. -/
theorem rollback_idempotent_witness :
    (∀ e ∈ (Rollback noPreImages 0 scenarioStore scenarioOp).2,
      e.2 ≠ RollbackOutcome.failed) ∧
    ((Rollback noPreImages 0
        (Rollback noPreImages 0 scenarioStore scenarioOp).1 scenarioOp).1 =
      (Rollback noPreImages 0 scenarioStore scenarioOp).1 ∧
    ∀ e ∈ (Rollback noPreImages 0
        (Rollback noPreImages 0 scenarioStore scenarioOp).1 scenarioOp).2,
      e.2 = RollbackOutcome.staleAction) :=
  ⟨by decide,
   rollback_idempotent noPreImages 0 scenarioStore scenarioOp (by decide)⟩

/-- C8: persisting a PendingOperation with Save and then calling Load on
its Id returns exactly the operation that was saved, for every store and
every operation, hence for every valid kind and action sequence. -/
theorem save_load_roundtrip (st : Store) (op : PendingOperation) :
    Load (Save st op) op.Id = Option.some op := by
  simp [Load, Save, lookupOp, List.find?]
